import Mathlib

/-!
Shallow embedding of the rule-evaluation service of this repository:
`src/evaluate_rules/main.py` (the node-graph rules engine, class
`NodeBasedRulesEngine`) and `src/evaluate_rules/main copy.py` (the
condition-tree variant, class `RulesEngine`).

Modelling conventions:
- Python runtime values become `PyVal`; Python truthiness, comparison and
  membership semantics are reproduced on that domain, with a raised
  `TypeError`/`ValueError` modelled as `Except.error`.
- The Firestore-backed telemetry store and the pub/sub publisher become the
  explicit `Env` parameter (`getLatest`, `dispatch`).
- Timestamps become integer seconds; `(datetime.now() - last_run).total_seconds()`
  becomes `now - t`.
- The unbounded `while` loop of `execute_rule` becomes a fuel-indexed
  recursion; `Option.none` means the loop has not terminated within the given
  number of iterations (the source loop has no cycle guard and can run
  forever).
-/

namespace RulesEval

/-- Python runtime values that flow through the engine. -/
inductive PyVal where
  | none
  | bool (b : Bool)
  | int (n : Int)
  | str (s : String)
  deriving Repr, DecidableEq

/-- Python truthiness (`bool(x)`). -/
def PyVal.truthy : PyVal → Bool
  | .none => false
  | .bool b => b
  | .int n => n != 0
  | .str s => s != ""

/-- Numeric view for comparisons: Python treats `bool` as the integers 0/1. -/
def PyVal.toNum? : PyVal → Option Int
  | .bool b => some (if b then 1 else 0)
  | .int n => some n
  | _ => Option.none

/-- `isinstance(x, str)`. -/
def PyVal.isStr : PyVal → Bool
  | .str _ => true
  | _ => false

/-- Python `x < y`: numbers compare numerically, strings lexicographically by
code point, and a string against a number raises `TypeError`. -/
def pyLt : PyVal → PyVal → Except String Bool
  | .str a, .str b => .ok (decide (a < b))
  | a, b =>
    match a.toNum?, b.toNum? with
    | some x, some y => .ok (decide (x < y))
    | _, _ => .error "TypeError: unsupported comparison"

/-- Python `x <= y`, with the same domain as `pyLt`. -/
def pyLe : PyVal → PyVal → Except String Bool
  | .str a, .str b => .ok (!decide (b < a))
  | a, b =>
    match a.toNum?, b.toNum? with
    | some x, some y => .ok (decide (x ≤ y))
    | _, _ => .error "TypeError: unsupported comparison"

/-- Python `x == y` on this value domain: never raises; values of unrelated
types are simply unequal, while `bool` and `int` compare numerically. -/
def pyEq : PyVal → PyVal → Bool
  | .none, .none => true
  | .str a, .str b => a == b
  | a, b =>
    match a.toNum?, b.toNum? with
    | some x, some y => x == y
    | _, _ => false

/-- Whether the first character list starts the second. -/
def startsWithChars : List Char → List Char → Bool
  | [], _ => true
  | _ :: _, [] => false
  | a :: as, b :: bs => a == b && startsWithChars as bs

/-- Whether the first character list occurs contiguously in the second. -/
def hasSegment (needle : List Char) : List Char → Bool
  | [] => needle.isEmpty
  | c :: rest => startsWithChars needle (c :: rest) || hasSegment needle rest

/-- Python `y in x`: substring test when both are strings, otherwise a
`TypeError` on this value domain. -/
def pyContains : PyVal → PyVal → Except String Bool
  | .str x, .str y => .ok (hasSegment y.toList x.toList)
  | _, _ => .error "TypeError: argument is not iterable"

/-- The `Operation` enum of comparison/membership operators. -/
inductive Operation where
  | GREATER_THAN | GREATER_EQUAL | LESS_THAN | LESS_EQUAL
  | EQUALS | NOT_EQUALS | CONTAINS | NOT_CONTAINS
  deriving Repr, DecidableEq

/-- `Operation(s)`: parse an operator symbol; an unknown symbol raises
`ValueError`. -/
def Operation.ofString (s : String) : Option Operation :=
  if s = ">" then some .GREATER_THAN
  else if s = ">=" then some .GREATER_EQUAL
  else if s = "<" then some .LESS_THAN
  else if s = "<=" then some .LESS_EQUAL
  else if s = "==" then some .EQUALS
  else if s = "!=" then some .NOT_EQUALS
  else if s = "contains" then some .CONTAINS
  else if s = "not_contains" then some .NOT_CONTAINS
  else Option.none

/-- The operator dispatch table (the `ops` lambda dict): `x > y` is `y < x`
and `x >= y` is `y <= x`, exactly as Python resolves the rich comparisons on
numbers and strings. -/
def applyOp : Operation → PyVal → PyVal → Except String Bool
  | .GREATER_THAN, x, y => pyLt y x
  | .GREATER_EQUAL, x, y => pyLe y x
  | .LESS_THAN, x, y => pyLt x y
  | .LESS_EQUAL, x, y => pyLe x y
  | .EQUALS, x, y => .ok (pyEq x y)
  | .NOT_EQUALS, x, y => .ok (!pyEq x y)
  | .CONTAINS, x, y => pyContains x y
  | .NOT_CONTAINS, x, y => (pyContains x y).map (!·)

/-- The node-type-specific parameters the executors read from
`node.properties`; an absent key models a missing dict entry. -/
structure Props where
  topic : Option String := Option.none
  input1 : Option PyVal := Option.none
  input2 : Option PyVal := Option.none
  operator : Option String := Option.none
  inputs : Option (List String) := Option.none
  action : Option PyVal := Option.none
  action_data : List (String × PyVal) := []
  deriving Repr, DecidableEq

/-- The `NodeType` enum. -/
inductive NodeType where
  | GET_DATA | COMPARE | AND | OR | PUBLISH | END
  deriving Repr, DecidableEq

/-- The enum member's string value (`node.type.value`). -/
def NodeType.str : NodeType → String
  | .GET_DATA => "get_data"
  | .COMPARE => "compare"
  | .AND => "and"
  | .OR => "or"
  | .PUBLISH => "publish"
  | .END => "end"

/-- `NodeType(s)`: parse a raw type string; an unknown string raises
`ValueError`. -/
def NodeType.ofString (s : String) : Option NodeType :=
  if s = "get_data" then some .GET_DATA
  else if s = "compare" then some .COMPARE
  else if s = "and" then some .AND
  else if s = "or" then some .OR
  else if s = "publish" then some .PUBLISH
  else if s = "end" then some .END
  else Option.none

/-- A node as stored inside a rule document, before `Node.from_dict`. -/
structure RawNode where
  id : String
  type : String
  properties : Props := {}
  next : List String := []
  next_true : List String := []
  next_false : List String := []
  deriving Repr, DecidableEq

/-- The `Node` dataclass after `from_dict` (which defaults `next`,
`next_true`, `next_false` to `[]` and `properties` to `{}`). -/
structure Node where
  id : String
  type : NodeType
  properties : Props
  next : List String
  next_true : List String
  next_false : List String
  deriving Repr, DecidableEq

/-- `Node.from_dict`: an unknown `type` string raises `ValueError`. -/
def Node.from_dict (d : RawNode) : Except String Node :=
  match NodeType.ofString d.type with
  | some t => .ok ⟨d.id, t, d.properties, d.next, d.next_true, d.next_false⟩
  | Option.none => .error ("ValueError: " ++ d.type ++ " is not a valid NodeType")

/-- The `NodeResult` dataclass; `details` models the diagnostic dict. -/
structure NodeResult where
  success : Bool
  value : PyVal
  details : List (String × PyVal)
  deriving Repr, DecidableEq

/-- The per-run execution context: node id ↦ produced value, most recent
write first (so lookup sees the latest write, as a Python dict does). -/
abbrev Ctx := List (String × PyVal)

/-- The engine's external collaborators: the telemetry store
(`get_latest_value`, with `PyVal.none` for an absent value) and the pub/sub
publisher (`publisher.publish`; `false` models a raised publish error). -/
structure Env where
  getLatest : String → PyVal
  dispatch : PyVal → List (String × PyVal) → Bool

/-- `execute_get_data_node`: a missing or falsy `topic` is an error, and the
outcome succeeds iff the adapter returns a value (`value is not None`). -/
def execute_get_data_node (env : Env) (node : Node) : NodeResult :=
  match node.properties.topic with
  | Option.none => ⟨false, .none, [("error", .str "No topic specified")]⟩
  | some t =>
    if t = "" then ⟨false, .none, [("error", .str "No topic specified")]⟩
    else
      let value := env.getLatest t
      ⟨value != PyVal.none, value, [("topic", .str t), ("value", value)]⟩

/-- Resolve a compare operand: a value that names an execution-context entry
reads that entry, otherwise the value itself is the literal operand
(`context.get(ref) if ref in context else ref`). -/
def resolveOperand (ctx : Ctx) (v : PyVal) : PyVal :=
  match v with
  | .str s =>
    match List.lookup s ctx with
    | some w => w
    | Option.none => v
  | _ => v

/-- `execute_compare_node`: resolves both operands, parses the operator and
applies it; any raised error (missing property key, unknown operator symbol,
`TypeError` from the comparison itself) is caught and becomes a failed
`NodeResult`. No type coercion is performed here. -/
def execute_compare_node (ctx : Ctx) (node : Node) : NodeResult :=
  match node.properties.input1, node.properties.input2, node.properties.operator with
  | some i1, some i2, some opStr =>
    let input1 := resolveOperand ctx i1
    let input2 := resolveOperand ctx i2
    match Operation.ofString opStr with
    | Option.none =>
      ⟨false, .none, [("error", .str ("ValueError: " ++ opStr ++ " is not a valid Operation"))]⟩
    | some op =>
      match applyOp op input1 input2 with
      | .ok b =>
        ⟨true, .bool b,
          [("input1", input1), ("input2", input2), ("operation", .str opStr),
           ("result", .bool b)]⟩
      | .error e => ⟨false, .none, [("error", .str e)]⟩
  | _, _, _ => ⟨false, .none, [("error", .str "KeyError")]⟩

/-- `execute_logical_node`: resolves each id in `properties.inputs` against
the execution context (`context.get`, so a missing entry yields `None`, which
is falsy) and folds with `all`/`any`. -/
def execute_logical_node (ctx : Ctx) (node : Node) : NodeResult :=
  match node.properties.inputs with
  | Option.none => ⟨false, .none, [("error", .str "KeyError: inputs")]⟩
  | some ids =>
    let vals := ids.map (fun i => (List.lookup i ctx).getD PyVal.none)
    let r := if node.type = NodeType.AND then vals.all PyVal.truthy else vals.any PyVal.truthy
    ⟨true, .bool r, [("operation", .str node.type.str), ("result", .bool r)]⟩

/-- `execute_publish_node`: hands the action request to the dispatcher; the
success marker is the string `"published"`, and a rejected publish raises,
becoming a failed `NodeResult`. -/
def execute_publish_node (env : Env) (node : Node) : NodeResult :=
  let action := node.properties.action.getD PyVal.none
  if env.dispatch action node.properties.action_data then
    ⟨true, .str "published", [("action", action)]⟩
  else
    ⟨false, .none, [("error", .str "publish failed")]⟩

/-- `execute_node`: dispatch on the node type and record the produced value
in the execution context under the node's own id (also on failure). -/
def execute_node (env : Env) (ctx : Ctx) (node : Node) : NodeResult × Ctx :=
  let result : NodeResult :=
    match node.type with
    | .GET_DATA => execute_get_data_node env node
    | .COMPARE => execute_compare_node ctx node
    | .AND => execute_logical_node ctx node
    | .OR => execute_logical_node ctx node
    | .PUBLISH => execute_publish_node env node
    | .END => ⟨true, .none, []⟩
  (result, (node.id, result.value) :: ctx)

/-- One element of the `results` trace built by `execute_rule`. -/
structure TraceEntry where
  node_id : String
  type : String
  result : PyVal
  details : List (String × PyVal)
  deriving Repr, DecidableEq

/-- The trace record appended for a node and its result. -/
def traceEntry (node : Node) (r : NodeResult) : TraceEntry :=
  ⟨node.id, node.type.str, r.value, r.details⟩

/-- The successor list consulted after a successful node: `next_true` /
`next_false` for a COMPARE node according to the truthiness of its result
value, `next` for every other type. -/
def chooseNext (node : Node) (v : PyVal) : List String :=
  if node.type = NodeType.COMPARE then
    if v.truthy then node.next_true else node.next_false
  else node.next

/-- Sequential `Option`-valued map: the Python `for` loop over rules, where a
non-terminating iteration (`Option.none`) aborts everything after it. -/
def mapMOpt (f : α → Option β) : List α → Option (List β)
  | [] => some []
  | a :: l =>
    match f a, mapMOpt f l with
    | some b, some bs => some (b :: bs)
    | _, _ => Option.none

/-- Sequential `Except`-valued map: the node-parsing dict comprehension of
`execute_rule`, where the first raised error aborts the whole rule. -/
def mapMExc (f : α → Except String β) : List α → Except String (List β)
  | [] => .ok []
  | a :: l =>
    match f a with
    | .error e => .error e
    | .ok b =>
      match mapMExc f l with
      | .error e => .error e
      | .ok bs => .ok (b :: bs)

/-- A rule document as consumed by `execute_rule` (`rule['nodes']`,
`rule['start_node']`, `rule.get('id')`, `rule.get('name')`). -/
structure Rule where
  id : Option String := Option.none
  name : Option String := Option.none
  start_node : String
  nodes : List RawNode
  deriving Repr, DecidableEq

/-- The per-rule result dict returned by `execute_rule`. -/
structure RuleResult where
  rule_id : Option String
  rule_name : Option String
  triggered : Bool
  node_results : Option (List TraceEntry)
  error : Option String
  deriving Repr, DecidableEq

/-- The dict produced by `execute_rule`'s `except` clause: `triggered` is
`False`, no `node_results`, and the raised error message is reported. -/
def errResult (rule : Rule) (e : String) : RuleResult :=
  ⟨rule.id, rule.name, false, Option.none, some e⟩

/-- `{node['id']: Node.from_dict(node) for node in rule['nodes']}`: a later
duplicate id overwrites an earlier one, modelled by looking the reversed
association list up front to back. -/
def dictOf (ns : List Node) : List (String × Node) :=
  (ns.map (fun n => (n.id, n))).reverse

/-- Whether a trace entry is a PUBLISH outcome reporting the success marker
(`r['type'] == 'publish'` and `r['result'] == "published"`). -/
def isPublished (r : TraceEntry) : Bool :=
  r.type == "publish" && r.result == PyVal.str "published"

/-- The `while current_node.type != NodeType.END` loop of `execute_rule`.
Fuel bounds the number of iterations; `Option.none` means the loop is still
running after that many steps (the source loop has no cycle guard and can run
forever). `Except.error` models an uncaught `KeyError` from following a
successor id that is not in the node dict. -/
def runLoop (env : Env) (dict : List (String × Node)) :
    Nat → Ctx → Node → List TraceEntry → Option (Except String (List TraceEntry))
  | 0, _, _, _ => Option.none
  | fuel + 1, ctx, current, acc =>
    if current.type = NodeType.END then some (.ok acc)
    else
      let step := execute_node env ctx current
      let acc' := acc ++ [traceEntry current step.1]
      if step.1.success then
        match chooseNext current step.1.value with
        | [] => some (.ok acc')
        | nid :: _ =>
          match List.lookup nid dict with
          | Option.none => some (.error ("KeyError: " ++ nid))
          | some n => runLoop env dict fuel step.2 n acc'
      else some (.ok acc')

/-- Wrap the walk's outcome into the per-rule result dict of `execute_rule`:
a raised `KeyError` hits the `except` clause, a finished trace yields
`triggered = any(r['result'] == "published" for r in results if r['type'] ==
'publish')`, and a non-terminating walk never returns. -/
def finishRun (rule : Rule) : Option (Except String (List TraceEntry)) → Option RuleResult
  | Option.none => Option.none
  | some (.error e) => some (errResult rule e)
  | some (.ok results) =>
    some ⟨rule.id, rule.name, results.any isPublished, some results, Option.none⟩

/-- `execute_rule`: parse the nodes, look the start node up, walk the graph,
then derive `triggered` from the trace; any raised error becomes a per-rule
error result. `Option.none` propagates a non-terminating walk. -/
def execute_rule (env : Env) (fuel : Nat) (rule : Rule) : Option RuleResult :=
  match mapMExc Node.from_dict rule.nodes with
  | .error e => some (errResult rule e)
  | .ok ns =>
    let dict := dictOf ns
    match List.lookup rule.start_node dict with
    | Option.none => some (errResult rule ("KeyError: " ++ rule.start_node))
    | some start => finishRun rule (runLoop env dict fuel [] start [])

/-- A rule document as stored in the `rules` collection. Optional fields
model missing dict keys; `last_run` is the parsed timestamp in seconds, with
`Option.none` modelling a missing or unparseable `last_run` (whose
`datetime.fromisoformat` raises, so the document is skipped). -/
structure RuleDoc where
  docId : String
  name : Option String := Option.none
  enabled : Option Bool := Option.none
  interval : Option Int := Option.none
  last_run : Option Int := Option.none
  start_node : String := ""
  nodes : List RawNode := []
  deriving Repr, DecidableEq

/-- The selection test of `get_rules`: `enabled` defaults to `True`,
`interval` defaults to 3600 seconds, and the elapsed seconds since `last_run`
must reach the interval (boundary inclusive). -/
def selectRule (now : Int) (d : RuleDoc) : Bool :=
  match d.last_run with
  | Option.none => false
  | some t => d.enabled.getD true && decide (d.interval.getD 3600 ≤ now - t)

/-- The rule dict handed to the engine (`rule_data['id'] = rule_doc.id`). -/
def RuleDoc.toRule (d : RuleDoc) : Rule :=
  ⟨some d.docId, d.name, d.start_node, d.nodes⟩

/-- `get_rules`: returns the due, enabled rules, and the store with
`last_run` stamped to `now` on exactly the selected documents (the stamp is
written during selection, before any rule is executed). -/
def get_rules (now : Int) (store : List RuleDoc) : List Rule × List RuleDoc :=
  ((store.filter (selectRule now)).map RuleDoc.toRule,
   store.map (fun d => if selectRule now d then { d with last_run := some now } else d))

/-- `evaluate_all_rules`: stamp and select via `get_rules`, then run each
selected rule in order; the store update is computed by `get_rules` before
any rule runs, so run outcomes cannot affect it. -/
def evaluate_all_rules (env : Env) (fuel : Nat) (now : Int) (store : List RuleDoc) :
    Option (List RuleResult) × List RuleDoc :=
  let p := get_rules now store
  (mapMOpt (execute_rule env fuel) p.1, p.2)

/-- The HTTP response body of the `evaluate_rules` entry point. -/
structure Response where
  status : String
  rule_results : Option (List RuleResult) := Option.none
  error : Option String := Option.none
  deriving Repr, DecidableEq

/-- The `evaluate_rules` Cloud Function: on normal termination the status is
always `"success"`, with per-rule failures reported inside `rule_results`. -/
def evaluate_rules_fn (env : Env) (fuel : Nat) (now : Int) (store : List RuleDoc) :
    Option (Response × List RuleDoc) :=
  let p := evaluate_all_rules env fuel now store
  match p.1 with
  | Option.none => Option.none
  | some results => some (⟨"success", some results, Option.none⟩, p.2)

/-- Python `str(x)` on this value domain. -/
def pyStr : PyVal → String
  | .none => "None"
  | .bool b => if b then "True" else "False"
  | .int n => toString n
  | .str s => s

/-- Digits-only parse used by `pyIntOfString`. -/
def pyIntDigits (cs : List Char) : Option Nat :=
  if cs = [] then Option.none
  else if cs.all Char.isDigit then
    some (cs.foldl (fun a c => a * 10 + (c.toNat - 48)) 0)
  else Option.none

/-- Models Python `int(s)` on a string: optional surrounding spaces, an
optional sign, then one or more decimal digits; anything else raises
`ValueError`. -/
def pyIntOfString (s : String) : Option Int :=
  let cs := ((s.toList.dropWhile (· == ' ')).reverse.dropWhile (· == ' ')).reverse
  match cs with
  | '-' :: rest => (pyIntDigits rest).map (fun n => -(n : Int))
  | '+' :: rest => (pyIntDigits rest).map (fun n => (n : Int))
  | _ => (pyIntDigits cs).map (fun n => (n : Int))

/-- `type(target)(s)` for a textual `s`: convert the string to the target
value's type. `int(s)` may raise `ValueError`; `bool(s)` is non-emptiness and
never raises; `NoneType(s)` raises `TypeError`. -/
def coerceToTypeOf (target : PyVal) (s : String) : Option PyVal :=
  match target with
  | .int _ => (pyIntOfString s).map PyVal.int
  | .bool _ => some (.bool (s != ""))
  | .none => Option.none
  | .str _ => some (.str s)

/-- The `Condition` dataclass of the condition-tree variant. -/
structure Condition where
  topic : String
  operation : Operation
  value : PyVal
  deriving Repr, DecidableEq

/-- The result dict of `evaluate_condition`. -/
structure CondResult where
  result : Bool
  details : List (String × PyVal)
  deriving Repr, DecidableEq

/-- `RulesEngine.evaluate_condition` (condition-tree variant): fetch the
latest value for the topic, then reconcile a textual/non-textual mismatch —
a textual telemetry value is converted to the target value's type, with a
conversion failure reported as a local failure carrying both raw values,
while a non-textual telemetry value is stringified when the target is textual
— and finally apply the operator; a `TypeError` from the comparison itself is
caught by the outer handler and yields a local failure. -/
def evaluate_condition (getLatest : String → PyVal) (c : Condition) : CondResult :=
  let latest := getLatest c.topic
  if latest = PyVal.none then
    ⟨false, [("topic", .str c.topic), ("target_value", c.value),
             ("current_value", PyVal.none), ("error", .str "No value available")]⟩
  else
    let coerced : Option PyVal :=
      if latest.isStr && !c.value.isStr then
        match latest with
        | .str s => coerceToTypeOf c.value s
        | _ => some latest
      else if c.value.isStr && !latest.isStr then
        some (.str (pyStr latest))
      else some latest
    match coerced with
    | Option.none =>
      ⟨false, [("topic", .str c.topic), ("target_value", c.value),
               ("current_value", latest), ("error", .str "Type conversion failed")]⟩
    | some lv =>
      match applyOp c.operation lv c.value with
      | .ok b => ⟨b, [("topic", .str c.topic), ("target_value", c.value), ("current_value", lv)]⟩
      | .error e => ⟨false, [("topic", .str c.topic), ("error", .str e)]⟩

/-! Concrete fixtures used by the theorems below. -/

/-- A telemetry store with every topic present and an accepting dispatcher. -/
def envA : Env := ⟨fun _ => .int 1, fun _ _ => true⟩

/-- A store where only topic `"present"` has a value; dispatcher accepts. -/
def envAbsent : Env := ⟨fun t => if t = "present" then .int 1 else .none, fun _ _ => true⟩

/-- A GET_DATA node whose only successor is itself. -/
def nodeA : Node := ⟨"a", .GET_DATA, { topic := some "t" }, ["a"], [], []⟩

/-- A one-node rule whose graph is a self-loop on `"a"`. -/
def cycleRule : Rule := ⟨some "r-cycle", some "cycle", "a",
  [⟨"a", "get_data", { topic := some "t" }, ["a"], [], []⟩]⟩

/-- A COMPARE node over two literal operands. -/
def cmpNode (i1 i2 : PyVal) (op : String) : Node :=
  ⟨"c", .COMPARE, { input1 := some i1, input2 := some i2, operator := some op }, [], [], []⟩

/-- Condition `value(topic) < 10` of the condition-tree variant. -/
def cond_lt10 : Condition := ⟨"t", .LESS_THAN, .int 10⟩

/-- A rule that publishes and then ends. -/
def pubRule : Rule := ⟨some "r-pub", some "pub", "p",
  [⟨"p", "publish", { action := some (.str "email") }, ["e"], [], []⟩,
   ⟨"e", "end", {}, [], [], []⟩]⟩

/-- The trace `execute_rule envA 3 pubRule` produces. -/
def pubTrace : List TraceEntry :=
  [⟨"p", "publish", .str "published", [("action", .str "email")]⟩]

/-- The result `execute_rule envA 3 pubRule` produces. -/
def pubRuleRes : RuleResult := ⟨some "r-pub", some "pub", true, some pubTrace, Option.none⟩

/-- A rule that publishes first and then reads an absent topic. -/
def pubThenGetRule : Rule := ⟨some "r-pg", some "pg", "p",
  [⟨"p", "publish", { action := some (.str "email") }, ["g"], [], []⟩,
   ⟨"g", "get_data", { topic := some "missing" }, ["p"], [], []⟩]⟩

/-- The trace of `pubThenGetRule` under `envAbsent`: the publish succeeds,
the GET_DATA fails, the walk stops there. -/
def pgTrace : List TraceEntry :=
  [⟨"p", "publish", .str "published", [("action", .str "email")]⟩,
   ⟨"g", "get_data", .none, [("topic", .str "missing"), ("value", .none)]⟩]

/-- The GET_DATA node of `pubThenGetRule`, reading the absent topic. -/
def gNodeAbsent : Node := ⟨"g", .GET_DATA, { topic := some "missing" }, ["p"], [], []⟩

/-- A rule whose first node reads an absent topic and whose second node would
publish. -/
def getFirstRule : Rule := ⟨some "r-g", some "gfirst", "g",
  [⟨"g", "get_data", { topic := some "missing" }, ["p"], [], []⟩,
   ⟨"p", "publish", { action := some (.str "email") }, [], [], []⟩]⟩

/-- A rule with a dangling successor id `"ghost"` on the untaken
`next_false` branch of its COMPARE start node. -/
def danglingRule : Rule := ⟨some "r-d", some "dangling", "c",
  [⟨"c", "compare", { input1 := some (.int 10), input2 := some (.int 5), operator := some ">" },
    [], ["e"], ["ghost"]⟩,
   ⟨"e", "end", {}, [], [], []⟩]⟩

/-- A rule whose publish start node points at the dangling id `"ghost"`. -/
def reachDanglingRule : Rule := ⟨some "r-rd", some "reachdangling", "p",
  [⟨"p", "publish", { action := some (.str "email") }, ["ghost"], [], []⟩]⟩

/-- A rule containing a node with an unknown type string. -/
def badTypeRule : Rule := ⟨some "r-bt", some "badtype", "x",
  [⟨"x", "frobnicate", {}, [], [], []⟩]⟩

/-- A rule whose `start_node` id does not occur in its node set. -/
def noStartRule : Rule := ⟨some "r-ns", some "nostart", "nope",
  [⟨"e", "end", {}, [], [], []⟩]⟩

/-- A GET_DATA node with a single successor, for the successor-step claims. -/
def nodeB : Node := ⟨"b", .GET_DATA, { topic := some "t" }, ["e"], [], []⟩

/-- An END node. -/
def nodeEndW : Node := ⟨"e", .END, {}, [], [], []⟩

/-- A one-entry node dict holding only the END node. -/
def dictW : List (String × Node) := [("e", nodeEndW)]

/-- Context binding node `"a"` to true and node `"b"` to false. -/
def ctxW : Ctx := [("a", .bool true), ("b", .bool false)]

/-- An AND node over inputs `a` and `b`. -/
def andNodeW : Node := ⟨"l", .AND, { inputs := some ["a", "b"] }, [], [], []⟩

/-- An OR node over inputs `a` and `b`. -/
def orNodeW : Node := ⟨"m", .OR, { inputs := some ["a", "b"] }, [], [], []⟩

/-- An AND node referencing the missing context key `z`. -/
def andMissW : Node := ⟨"n", .AND, { inputs := some ["a", "z"] }, [], [], []⟩

/-- A stored rule document with all scheduling fields explicit. -/
def docW : RuleDoc :=
  { docId := "r1", name := some "w", enabled := some true,
    interval := some 60, last_run := some 100 }

/-- A stored rule document with `enabled` and `interval` keys missing. -/
def docDefaults : RuleDoc := { docId := "r2", last_run := some 0 }

/-- The rule `get_rules` hands to the engine for `docW` (its graph is empty,
so its run fails with a start-node `KeyError`). -/
def ruleW : Rule := RuleDoc.toRule docW

/-- The response `evaluate_rules_fn envA 3 160 [docW]` produces: overall
success, with the one rule's failure confined to its per-rule error field. -/
def respW : Response := ⟨"success", some [errResult ruleW "KeyError: "], Option.none⟩

/-- The store after `evaluate_rules_fn envA 3 160 [docW]`: `docW` with its
`last_run` stamped to the evaluation instant. -/
def storeW : List RuleDoc := [{ docW with last_run := some 160 }]

/-! Theorems. -/

/-- On the self-loop graph the walk re-enters node `"a"` every iteration, so
no iteration budget suffices for it to terminate. -/
theorem cycle_loop_spins (fuel : Nat) (ctx : Ctx) (acc : List TraceEntry) :
    runLoop envA [("a", nodeA)] fuel ctx nodeA acc = Option.none := by
  induction fuel generalizing ctx acc with
  | zero => rfl
  | succ n ih =>
    simp only [runLoop, nodeA, envA, execute_node, execute_get_data_node, chooseNext,
      traceEntry]
    exact ih _ _

/-- C1: the claim requires a revisited node id to abort the run with a
cycle-detected error, but `execute_rule` has no such guard: on the one-node
self-loop rule the walk never terminates, for every iteration budget, instead
of returning any result at all. -/
theorem c1_cycle_divergence :
    ∀ fuel : Nat, execute_rule envA fuel cycleRule = Option.none := by
  intro fuel
  have h : execute_rule envA fuel cycleRule
      = finishRun cycleRule (runLoop envA [("a", nodeA)] fuel [] nodeA []) := rfl
  rw [h, cycle_loop_spins]
  rfl

/-- C2 counterexample: the claim says the COMPARE evaluation coerces the
textual operand, so that operands `("5", 10, "<")` yield `true`; but
`execute_compare_node` performs no coercion — on those operands the Python
comparison raises `TypeError`, which the handler turns into a failed
`NodeResult` with value `None`, not a successful `true`. -/
theorem c2_counterexample :
    (execute_compare_node [] (cmpNode (.str "5") (.int 10) "<")).success = false ∧
    (execute_compare_node [] (cmpNode (.str "5") (.int 10) "<")).value = PyVal.none :=
  ⟨rfl, rfl⟩

/-- C2 amended: the node-based COMPARE evaluation performs no coercion —
`(10, 5, ">")` yields `true`, while `("5", 10, "<")` and `("abc", 5, "<")`
both yield a local evaluation failure (not a crash). The coercion lives in
the condition-tree variant's `evaluate_condition`: a textual telemetry value
is converted to the non-textual target's type (so `"5" < 10` coerces and
yields `true`, and a failed conversion such as `"abc" < 10` yields a local
failure whose details report both raw values), whereas a textual target with
a non-textual telemetry value makes the engine stringify the telemetry value
and compare textually. -/
theorem c2_coercion_located_in_tree_variant :
    (execute_compare_node [] (cmpNode (.int 10) (.int 5) ">")).success = true ∧
    (execute_compare_node [] (cmpNode (.int 10) (.int 5) ">")).value = PyVal.bool true ∧
    (execute_compare_node [] (cmpNode (.str "5") (.int 10) "<")).success = false ∧
    (execute_compare_node [] (cmpNode (.str "abc") (.int 5) "<")).success = false ∧
    (evaluate_condition (fun _ => .str "5") cond_lt10).result = true ∧
    (∀ (s : String) (k : Int), pyIntOfString s = some k →
      evaluate_condition (fun _ => .str s) cond_lt10 =
        ⟨decide (k < 10),
         [("topic", .str "t"), ("target_value", .int 10), ("current_value", .int k)]⟩) ∧
    (∀ s : String, pyIntOfString s = Option.none →
      evaluate_condition (fun _ => .str s) cond_lt10 =
        ⟨false, [("topic", .str "t"), ("target_value", .int 10),
                 ("current_value", .str s), ("error", .str "Type conversion failed")]⟩) ∧
    (∀ (n : Int) (s topic : String) (op : Operation),
      (evaluate_condition (fun _ => .int n) ⟨topic, op, .str s⟩).result
        = ((applyOp op (.str (pyStr (.int n))) (.str s)).toOption.getD false)) := by
  refine ⟨rfl, rfl, rfl, rfl, rfl, ?_, ?_, ?_⟩
  · intro s k h
    simp [evaluate_condition, cond_lt10, PyVal.isStr, coerceToTypeOf, h, applyOp, pyLt,
      PyVal.toNum?]
  · intro s h
    simp [evaluate_condition, cond_lt10, PyVal.isStr, coerceToTypeOf, h]
  · intro n s topic op
    cases hop : applyOp op (.str (pyStr (.int n))) (.str s) with
    | ok b => simp [evaluate_condition, PyVal.isStr, hop, Except.toOption]
    | error e => simp [evaluate_condition, PyVal.isStr, hop, Except.toOption]

/-- C2 witness: the universally quantified coercion clauses instantiated at
`"7"` (which parses to 7) and `"abc"` (which fails to parse). -/
theorem c2_coercion_witness :
    pyIntOfString "7" = some 7 ∧
    pyIntOfString "abc" = Option.none ∧
    evaluate_condition (fun _ => .str "7") cond_lt10 =
      ⟨decide ((7 : Int) < 10),
       [("topic", .str "t"), ("target_value", .int 10), ("current_value", .int 7)]⟩ ∧
    evaluate_condition (fun _ => .str "abc") cond_lt10 =
      ⟨false, [("topic", .str "t"), ("target_value", .int 10),
               ("current_value", .str "abc"), ("error", .str "Type conversion failed")]⟩ :=
  ⟨by decide, by decide,
   c2_coercion_located_in_tree_variant.2.2.2.2.2.1 "7" 7 (by decide),
   c2_coercion_located_in_tree_variant.2.2.2.2.2.2.1 "abc" (by decide)⟩

/-- A normally completed walk determines `triggered` as `any isPublished`
over the returned trace; the error result carries no trace at all. -/
theorem finishRun_trace (rule : Rule) (o : Option (Except String (List TraceEntry)))
    (res : RuleResult) (l : List TraceEntry)
    (h : finishRun rule o = some res) (ht : res.node_results = some l) :
    res.triggered = l.any isPublished := by
  cases o with
  | none => simp [finishRun] at h
  | some exc =>
    cases exc with
    | error e =>
      injection h with h
      rw [← h] at ht
      simp [errResult] at ht
    | ok results =>
      injection h with h
      rw [← h] at ht
      simp only [Option.some.injEq] at ht
      rw [← h, ht]

/-- C3: for every rule evaluation that completes with a trace, the returned
`triggered` verdict is true iff at least one PUBLISH node in the trace
reports the success marker `"published"`. -/
theorem c3_triggered_iff_publish (env : Env) (fuel : Nat) (rule : Rule)
    (res : RuleResult) (l : List TraceEntry)
    (hres : execute_rule env fuel rule = some res)
    (htrace : res.node_results = some l) :
    res.triggered = true ↔ ∃ e ∈ l, e.type = "publish" ∧ e.result = PyVal.str "published" := by
  have h : res.triggered = l.any isPublished := by
    unfold execute_rule at hres
    split at hres
    · injection hres with h
      rw [← h] at htrace
      simp [errResult] at htrace
    · simp only [] at hres
      split at hres
      · injection hres with h
        rw [← h] at htrace
        simp [errResult] at htrace
      · exact finishRun_trace rule _ res l hres htrace
  rw [h, List.any_eq_true]
  constructor
  · rintro ⟨e, he, hp⟩
    have := hp
    simp only [isPublished, Bool.and_eq_true, beq_iff_eq] at this
    exact ⟨e, he, this⟩
  · rintro ⟨e, he, h1, h2⟩
    exact ⟨e, he, by simp [isPublished, h1, h2]⟩

/-- C3 witness: the single-publish rule completes with a trace whose one
entry is the successful publish, and `triggered` is true accordingly. -/
theorem c3_triggered_witness :
    execute_rule envA 3 pubRule = some pubRuleRes ∧
    pubRuleRes.node_results = some pubTrace ∧
    (pubRuleRes.triggered = true ↔
      ∃ e ∈ pubTrace, e.type = "publish" ∧ e.result = PyVal.str "published") :=
  ⟨rfl, rfl, c3_triggered_iff_publish envA 3 pubRule pubRuleRes pubTrace rfl rfl⟩

/-- C4: a stored rule is selected exactly when it is enabled and the elapsed
seconds since `last_run` reach its interval; a disabled rule is never
selected, an early rule is excluded, the boundary `elapsed == interval` is
included, and `get_rules` returns exactly the documents passing this test. -/
theorem c4_scheduler_selection (now t iv : Int) (b : Bool) (d : RuleDoc)
    (hl : d.last_run = some t) (he : d.enabled = some b) (hi : d.interval = some iv) :
    (selectRule now d = true ↔ b = true ∧ iv ≤ now - t) ∧
    (b = false → selectRule now d = false) ∧
    (now - t < iv → selectRule now d = false) ∧
    (now - t = iv → b = true → selectRule now d = true) ∧
    (∀ store : List RuleDoc,
      (get_rules now store).1 = (store.filter (selectRule now)).map RuleDoc.toRule) := by
  refine ⟨?_, ?_, ?_, ?_, fun _ => rfl⟩
  · simp [selectRule, hl, he, hi]
  · intro hb
    simp [selectRule, hl, he, hi, hb]
  · intro hlt
    have hn : ¬ (iv ≤ now - t) := by omega
    simp [selectRule, hl, he, hi, hn]
  · intro heq hb
    simp [selectRule, hl, he, hi, hb, heq]

/-- C4 witness: a rule with `enabled=true`, `interval=60`, `last_run=100`,
evaluated at `now=160` — exactly at the boundary — is selected. -/
theorem c4_scheduler_witness :
    docW.last_run = some 100 ∧ docW.enabled = some true ∧ docW.interval = some 60 ∧
    (selectRule 160 docW = true ↔ true = true ∧ (60 : Int) ≤ 160 - 100) ∧
    ((160 : Int) - 100 = 60 → true = true → selectRule 160 docW = true) :=
  ⟨rfl, rfl, rfl, (c4_scheduler_selection 160 100 60 true docW rfl rfl rfl).1,
   (c4_scheduler_selection 160 100 60 true docW rfl rfl rfl).2.2.2.1⟩

/-- C5: after a successful non-END node the walk consults `chooseNext` —
`next` for non-COMPARE nodes, `next_true`/`next_false` by the result's
truthiness for COMPARE nodes — stops when that list is empty, and otherwise
advances to exactly its first id (a single successor, never a fan-out). -/
theorem c5_first_successor (env : Env) (dict : List (String × Node)) (fuel : Nat)
    (ctx : Ctx) (node : Node) (acc : List TraceEntry)
    (hne : node.type ≠ NodeType.END)
    (hsucc : (execute_node env ctx node).1.success = true) :
    (runLoop env dict (fuel + 1) ctx node acc =
      match chooseNext node (execute_node env ctx node).1.value with
      | [] => some (Except.ok (acc ++ [traceEntry node (execute_node env ctx node).1]))
      | nid :: _ =>
        match List.lookup nid dict with
        | Option.none => some (Except.error ("KeyError: " ++ nid))
        | some n =>
          runLoop env dict fuel (execute_node env ctx node).2 n
            (acc ++ [traceEntry node (execute_node env ctx node).1])) ∧
    (node.type ≠ NodeType.COMPARE → ∀ v : PyVal, chooseNext node v = node.next) ∧
    (node.type = NodeType.COMPARE → ∀ v : PyVal,
      chooseNext node v = if v.truthy then node.next_true else node.next_false) := by
  refine ⟨?_, ?_, ?_⟩
  · simp only [runLoop, hne, if_false, ite_false, hsucc]
    simp [hsucc]
  · intro h v
    simp [chooseNext, h]
  · intro h v
    simp [chooseNext, h]

/-- C5 witness: a successful GET_DATA node with successor list `["e"]`
advances to the END node `"e"`, the first and only id of its `next` list. -/
theorem c5_first_successor_witness :
    nodeB.type ≠ NodeType.END ∧
    (execute_node envA [] nodeB).1.success = true ∧
    runLoop envA dictW 1 [] nodeB [] =
      (match chooseNext nodeB (execute_node envA [] nodeB).1.value with
       | [] => some (Except.ok ([] ++ [traceEntry nodeB (execute_node envA [] nodeB).1]))
       | nid :: _ =>
         match List.lookup nid dictW with
         | Option.none => some (Except.error ("KeyError: " ++ nid))
         | some n =>
           runLoop envA dictW 0 (execute_node envA [] nodeB).2 n
             ([] ++ [traceEntry nodeB (execute_node envA [] nodeB).1])) :=
  ⟨by decide, rfl, (c5_first_successor envA dictW 0 [] nodeB [] (by decide) rfl).1⟩

/-- C6 counterexample: the claim says a run with a failed node reports
`triggered = false`; but in `pubThenGetRule` the PUBLISH node succeeds first
and then the GET_DATA node fails on its absent topic, so the run stops with
that failure recorded in the trace and yet reports `triggered = true`. -/
theorem c6_counterexample :
    (execute_get_data_node envAbsent gNodeAbsent).success = false ∧
    execute_rule envAbsent 5 pubThenGetRule =
      some ⟨some "r-pg", some "pg", true, some pgTrace, Option.none⟩ :=
  ⟨rfl, rfl⟩

/-- C6 amended: when a node fails the walk stops immediately — the trace ends
at the failed node and no successor is followed; a GET_DATA node whose topic
has no telemetry value is such a local failure; and `triggered` is false
unless a PUBLISH node already reported success earlier in the run, as in the
concrete rule whose absent-topic GET_DATA comes first: its run stops at that
node, the later PUBLISH never executes, and `triggered = false`. -/
theorem c6_failure_stops_walk (env : Env) (dict : List (String × Node)) (fuel : Nat)
    (ctx : Ctx) (node : Node) (acc : List TraceEntry)
    (hne : node.type ≠ NodeType.END)
    (hfail : (execute_node env ctx node).1.success = false) :
    (runLoop env dict (fuel + 1) ctx node acc =
      some (.ok (acc ++ [traceEntry node (execute_node env ctx node).1]))) ∧
    (∀ (env' : Env) (node' : Node) (t : String),
      node'.properties.topic = some t → t ≠ "" → env'.getLatest t = PyVal.none →
      execute_get_data_node env' node' =
        ⟨false, .none, [("topic", .str t), ("value", .none)]⟩) ∧
    execute_rule envAbsent 5 getFirstRule =
      some ⟨some "r-g", some "gfirst", false,
            some [⟨"g", "get_data", .none, [("topic", .str "missing"), ("value", .none)]⟩],
            Option.none⟩ := by
  refine ⟨?_, ?_, rfl⟩
  · simp [runLoop, hne, hfail]
  · intro env' node' t ht hte hval
    simp [execute_get_data_node, ht, hte, hval]

/-- C6 witness: the absent-topic GET_DATA node fails and the walk stops at it
without consulting its (nonempty) successor list. -/
theorem c6_failure_witness :
    gNodeAbsent.type ≠ NodeType.END ∧
    (execute_node envAbsent [] gNodeAbsent).1.success = false ∧
    runLoop envAbsent [] 1 [] gNodeAbsent [] =
      some (.ok ([] ++ [traceEntry gNodeAbsent (execute_node envAbsent [] gNodeAbsent).1])) :=
  ⟨by decide, rfl, (c6_failure_stops_walk envAbsent [] 0 [] gNodeAbsent [] (by decide) rfl).1⟩

/-- C7: an AND (resp. OR) node resolves each id in `properties.inputs`
against the execution context with missing entries defaulting to `None`
(falsy), combines the truthiness of the resolved values with all (resp. any)
semantics, and always succeeds rather than failing the run. -/
theorem c7_logical_semantics (ctx : Ctx) (node : Node) (ids : List String)
    (hin : node.properties.inputs = some ids) :
    (node.type = NodeType.AND →
      execute_logical_node ctx node =
        ⟨true,
         .bool ((ids.map (fun i => (List.lookup i ctx).getD PyVal.none)).all PyVal.truthy),
         [("operation", .str "and"),
          ("result",
           .bool ((ids.map (fun i => (List.lookup i ctx).getD PyVal.none)).all PyVal.truthy))]⟩) ∧
    (node.type = NodeType.OR →
      execute_logical_node ctx node =
        ⟨true,
         .bool ((ids.map (fun i => (List.lookup i ctx).getD PyVal.none)).any PyVal.truthy),
         [("operation", .str "or"),
          ("result",
           .bool ((ids.map (fun i => (List.lookup i ctx).getD PyVal.none)).any PyVal.truthy))]⟩) := by
  constructor
  · intro h
    simp [execute_logical_node, hin, h, NodeType.str]
  · intro h
    simp [execute_logical_node, hin, h, NodeType.str]

/-- C7 witness: over context entries `a ↦ true`, `b ↦ false` an AND node on
`[a, b]` yields `false` and an OR node yields `true`; an AND node referencing
the missing key `z` still succeeds, treating `z` as falsy. -/
theorem c7_logical_witness :
    execute_logical_node ctxW andNodeW =
      ⟨true, .bool false, [("operation", .str "and"), ("result", .bool false)]⟩ ∧
    execute_logical_node ctxW orNodeW =
      ⟨true, .bool true, [("operation", .str "or"), ("result", .bool true)]⟩ ∧
    execute_logical_node ctxW andMissW =
      ⟨true, .bool false, [("operation", .str "and"), ("result", .bool false)]⟩ :=
  ⟨(c7_logical_semantics ctxW andNodeW ["a", "b"] rfl).1 rfl,
   (c7_logical_semantics ctxW orNodeW ["a", "b"] rfl).2 rfl,
   (c7_logical_semantics ctxW andMissW ["a", "z"] rfl).1 rfl⟩

/-- C8: the store update is fixed by `get_rules` before any rule runs, so it
is identical for every engine environment and fuel (a failed run still
consumes its interval); no document is added or removed; and each document
keeps every field except `last_run`, which is stamped to `now` exactly on the
selected documents. -/
theorem c8_last_run_frame (env env' : Env) (fuel fuel' : Nat) (now : Int)
    (store : List RuleDoc) :
    ((evaluate_all_rules env fuel now store).2 = (get_rules now store).2) ∧
    ((evaluate_all_rules env fuel now store).2 = (evaluate_all_rules env' fuel' now store).2) ∧
    ((get_rules now store).2.length = store.length) ∧
    (∀ (i : Nat) (h : i < store.length) (h2 : i < (get_rules now store).2.length),
      ((get_rules now store).2.get ⟨i, h2⟩).docId = (store.get ⟨i, h⟩).docId ∧
      ((get_rules now store).2.get ⟨i, h2⟩).name = (store.get ⟨i, h⟩).name ∧
      ((get_rules now store).2.get ⟨i, h2⟩).enabled = (store.get ⟨i, h⟩).enabled ∧
      ((get_rules now store).2.get ⟨i, h2⟩).interval = (store.get ⟨i, h⟩).interval ∧
      ((get_rules now store).2.get ⟨i, h2⟩).start_node = (store.get ⟨i, h⟩).start_node ∧
      ((get_rules now store).2.get ⟨i, h2⟩).nodes = (store.get ⟨i, h⟩).nodes ∧
      ((get_rules now store).2.get ⟨i, h2⟩).last_run =
        (if selectRule now (store.get ⟨i, h⟩) then some now
         else (store.get ⟨i, h⟩).last_run)) := by
  refine ⟨rfl, rfl, by simp [get_rules], ?_⟩
  intro i h h2
  have hg : (get_rules now store).2.get ⟨i, h2⟩
      = (fun d => if selectRule now d then { d with last_run := some now } else d)
          (store.get ⟨i, h⟩) := by
    simp [get_rules, List.get_eq_getElem, List.getElem_map]
  rw [hg]
  simp only [List.get_eq_getElem]
  by_cases hs : selectRule now store[i] = true <;> simp [hs]

/-- C8 witness: in the one-document store the stamped document keeps its
identity and fields, with `last_run` rewritten to the evaluation instant. -/
theorem c8_frame_witness :
    ((get_rules 160 [docW]).2.get ⟨0, by decide⟩).docId = docW.docId ∧
    ((get_rules 160 [docW]).2.get ⟨0, by decide⟩).last_run =
      (if selectRule 160 docW then some (160 : Int) else docW.last_run) :=
  ⟨((c8_last_run_frame envA envAbsent 3 5 160 [docW]).2.2.2 0 (by decide) (by decide)).1,
   ((c8_last_run_frame envA envAbsent 3 5 160 [docW]).2.2.2 0 (by decide)
      (by decide)).2.2.2.2.2.2⟩

/-- Each entry of a completed `mapMOpt` run is the function's value on the
corresponding input — one element's outcome never depends on the others. -/
theorem mapMOpt_get (f : α → Option β) :
    ∀ (l : List α) (rs : List β), mapMOpt f l = some rs →
      ∀ (i : Nat) (h : i < l.length) (h2 : i < rs.length),
        some (rs.get ⟨i, h2⟩) = f (l.get ⟨i, h⟩) := by
  intro l
  induction l with
  | nil =>
    intro rs hrs i hi h2
    simp at hi
  | cons a l ih =>
    intro rs hrs i hi h2
    unfold mapMOpt at hrs
    cases hfa : f a with
    | none =>
      rw [hfa] at hrs
      simp at hrs
    | some b =>
      rw [hfa] at hrs
      cases hml : mapMOpt f l with
      | none =>
        rw [hml] at hrs
        simp at hrs
      | some bs =>
        rw [hml] at hrs
        simp only [Option.some.injEq] at hrs
        subst hrs
        cases i with
        | zero => simpa using hfa.symm
        | succ n => exact ih bs hml n (by simpa using hi) (by simpa using h2)

/-- C9 counterexample: `danglingRule` is malformed — the id `"ghost"`
referenced in its COMPARE node's `next_false` names no node — yet no error
is surfaced at load or at any point, and the rule is not skipped: the run
takes the `next_true` branch and completes normally with no error field. -/
theorem c9_counterexample :
    (danglingRule.nodes.all (fun n => n.id != "ghost")) = true ∧
    (danglingRule.nodes.any (fun n => n.next_false.contains "ghost")) = true ∧
    execute_rule envA 5 danglingRule =
      some ⟨some "r-d", some "dangling", false,
            some [⟨"c", "compare", .bool true,
                   [("input1", .int 10), ("input2", .int 5), ("operation", .str ">"),
                    ("result", .bool true)]⟩],
            Option.none⟩ :=
  ⟨rfl, rfl, rfl⟩

/-- C9 amended: an unknown node type or a missing start node is caught when
the rule is loaded and aborts only that rule with its per-rule error field
populated; a dangling successor id raises only when traversal reaches it
(nodes already executed are not undone, and the trace is then discarded);
each selected rule's result is a function of that rule alone, so one rule's
failure cannot affect another's evaluation; and the overall response always
reports success, with per-rule failures inside `rule_results`. -/
theorem c9_per_rule_errors :
    (∀ (env : Env) (fuel : Nat) (rule : Rule) (e : String),
      mapMExc Node.from_dict rule.nodes = .error e →
      execute_rule env fuel rule = some (errResult rule e)) ∧
    (∀ (env : Env) (fuel : Nat) (rule : Rule) (ns : List Node),
      mapMExc Node.from_dict rule.nodes = .ok ns →
      List.lookup rule.start_node (dictOf ns) = Option.none →
      execute_rule env fuel rule =
        some (errResult rule ("KeyError: " ++ rule.start_node))) ∧
    execute_rule envA 5 badTypeRule =
      some (errResult badTypeRule "ValueError: frobnicate is not a valid NodeType") ∧
    execute_rule envA 5 noStartRule = some (errResult noStartRule "KeyError: nope") ∧
    execute_rule envA 5 reachDanglingRule =
      some (errResult reachDanglingRule "KeyError: ghost") ∧
    (∀ (env : Env) (fuel : Nat) (now : Int) (store : List RuleDoc) (rs : List RuleResult),
      mapMOpt (execute_rule env fuel) (get_rules now store).1 = some rs →
      ∀ (i : Nat) (h : i < (get_rules now store).1.length) (h2 : i < rs.length),
        some (rs.get ⟨i, h2⟩) = execute_rule env fuel ((get_rules now store).1.get ⟨i, h⟩)) ∧
    (∀ (env : Env) (fuel : Nat) (now : Int) (store : List RuleDoc)
       (resp : Response) (store2 : List RuleDoc),
      evaluate_rules_fn env fuel now store = some (resp, store2) →
      resp.status = "success") := by
  refine ⟨?_, ?_, rfl, rfl, rfl, ?_, ?_⟩
  · intro env fuel rule e h
    unfold execute_rule
    rw [h]
  · intro env fuel rule ns h hl
    unfold execute_rule
    rw [h]
    simp only []
    rw [hl]
  · intro env fuel now store rs hrs i h h2
    exact mapMOpt_get (execute_rule env fuel) (get_rules now store).1 rs hrs i h h2
  · intro env fuel now store resp store2 hr
    unfold evaluate_rules_fn evaluate_all_rules at hr
    simp only [] at hr
    cases hm : mapMOpt (execute_rule env fuel) (get_rules now store).1 with
    | none =>
      rw [hm] at hr
      simp at hr
    | some rs =>
      rw [hm] at hr
      simp only [Option.some.injEq, Prod.mk.injEq] at hr
      rw [← hr.1]

/-- C9 witness: the unknown-node-type rule is rejected at load with only its
error field populated, and the one-rule store still produces an overall
success response carrying that per-rule failure. -/
theorem c9_per_rule_witness :
    execute_rule envAbsent 7 badTypeRule =
      some (errResult badTypeRule "ValueError: frobnicate is not a valid NodeType") ∧
    respW.status = "success" :=
  ⟨c9_per_rule_errors.1 envAbsent 7 badTypeRule
      "ValueError: frobnicate is not a valid NodeType" rfl,
   c9_per_rule_errors.2.2.2.2.2.2 envA 3 160 [docW] respW storeW rfl⟩

/-- C10: a document without an `enabled` key is treated as enabled — its
selection depends only on the elapsed-time test — and a document without an
`interval` key defaults to 3600 seconds; such documents are selected and
handed to the engine once 3600 seconds have elapsed. -/
theorem c10_scheduler_defaults (now t : Int) (d : RuleDoc)
    (hl : d.last_run = some t) (he : d.enabled = Option.none) :
    (selectRule now d = true ↔ d.interval.getD 3600 ≤ now - t) ∧
    (d.interval = Option.none → (selectRule now d = true ↔ (3600 : Int) ≤ now - t)) ∧
    (∀ store : List RuleDoc, d ∈ store → selectRule now d = true →
      RuleDoc.toRule d ∈ (get_rules now store).1) := by
  refine ⟨?_, ?_, ?_⟩
  · simp [selectRule, hl, he]
  · intro hi
    simp [selectRule, hl, he, hi]
  · intro store hmem hsel
    simp only [get_rules, List.mem_map]
    exact ⟨d, List.mem_filter.mpr ⟨hmem, hsel⟩, rfl⟩

/-- C10 witness: the document with both keys missing, last run at time 0, is
selected at time 3600 (the defaulted interval boundary) and appears among the
rules handed to the engine. -/
theorem c10_defaults_witness :
    docDefaults.last_run = some 0 ∧ docDefaults.enabled = Option.none ∧
    docDefaults.interval = Option.none ∧
    (selectRule 3600 docDefaults = true ↔ (3600 : Int) ≤ 3600 - 0) ∧
    RuleDoc.toRule docDefaults ∈ (get_rules 3600 [docDefaults]).1 :=
  ⟨rfl, rfl, rfl,
   (c10_scheduler_defaults 3600 0 docDefaults rfl rfl).2.1 rfl,
   (c10_scheduler_defaults 3600 0 docDefaults rfl rfl).2.2 [docDefaults]
     (by simp) (by decide)⟩

end RulesEval
